import Mathlib

/-!
Verification of the chemical-process-design repository's core logic:
the specification model (`src/models/specifications.py`), the material model
(`src/models/materials.py`), the result analysis layer (`src/aspen/parser.py`)
and the orchestration layer (`src/aspen/simulation.py`).

Python data that crosses these functions' boundaries is heterogeneous
(`Dict[str, Any]`), so it is modelled by the inductive `PVal` below: numbers
become exact rationals, strings stay strings, `None` becomes `PVal.null`, and
nested dicts become ordered association lists (Python dicts preserve insertion
order; updating an existing key keeps its position, a new key is appended —
`dictInsert` mirrors exactly that; Python dicts never hold a duplicate key, and
every dict the embedding builds starts empty and grows through `dictInsert`,
which preserves that invariant).

Operations Python would raise a `TypeError` on (ordering a string against a
number, summing non-numeric flows) are outside every claim considered here;
at those points the embedding uses an explicitly marked total default and the
accompanying comment records the divergence.
-/

/-- Model of a Python value as it appears in this repository's data
(`Dict[str, Any]` payloads): a number (exact rational in place of float),
a string, `None`, or a nested string-keyed dict kept in insertion order. -/
inductive PVal where
  | num (q : ℚ)
  | str (s : String)
  | null
  | dict (fields : List (String × PVal))

mutual

/-- Python `==` between two modelled values. Numbers compare by value and
strings by content, `None` only equals `None`, and any cross-constructor
comparison is `False`, exactly as in Python for these value shapes. Dicts are
compared entrywise in order; Python compares dicts unordered, but no code path
verified here compares two dicts built in different orders. -/
def PVal.pyEq : PVal → PVal → Bool
  | .num a, .num b => a == b
  | .str a, .str b => a == b
  | .null, .null => true
  | .dict a, .dict b => PVal.pyEqFields a b
  | _, _ => false

/-- Entrywise dict equality used by `PVal.pyEq`. -/
def PVal.pyEqFields : List (String × PVal) → List (String × PVal) → Bool
  | [], [] => true
  | (k1, v1) :: xs, (k2, v2) :: ys => k1 == k2 && PVal.pyEq v1 v2 && PVal.pyEqFields xs ys
  | _, _ => false

end

/-- Python `d.get(key)` / `d[key]` on a string-keyed dict modelled as an
association list (first match; the dicts built here never repeat a key). -/
def pyGet {α : Type} : List (String × α) → String → Option α
  | [], _ => Option.none
  | kv :: d, k => if kv.1 = k then some kv.2 else pyGet d k

/-- Python `key in d` on a string-keyed dict. -/
def containsKey {α : Type} (d : List (String × α)) (k : String) : Bool :=
  (pyGet d k).isSome

/-- Python `d[key] = v`: an existing key keeps its position and receives the
new value, a new key is appended at the end. -/
def dictInsert {α : Type} : List (String × α) → String → α → List (String × α)
  | [], k, v => [(k, v)]
  | kv :: d, k, v => if kv.1 = k then (k, v) :: d else kv :: dictInsert d k v

/-- Numeric view of a stream-record value. Every flow the claims exercise is
numeric; on a non-numeric value Python would raise a `TypeError` inside
`sum`/`+=`, which no claim reaches — the embedding totalises that case to 0. -/
def asNum : PVal → ℚ
  | .num q => q
  | _ => 0

/-- Python `s.startswith(p)`, modelled on the character list of the string. -/
def pyStartsWith (s p : String) : Bool :=
  p.data.isPrefixOf s.data

/-- Model of `ProductSpecification` (src/models/specifications.py). Numeric
fields are exact rationals; `state` is the optional literal string
gas/liquid/solid; `temperature_range`/`pressure_range` model the
`{min, max}` dicts as an optional-min/optional-max pair (the code reads them
only through `.get("min")`/`.get("max")`); `properties` is the open custom
map. -/
structure ProductSpecification where
  name : String
  chemical_formula : Option String
  cas_number : Option String
  purity : Option ℚ
  yield_requirement : Option ℚ
  state : Option String
  temperature_range : Option (Option ℚ × Option ℚ)
  pressure_range : Option (Option ℚ × Option ℚ)
  properties : List (String × PVal)

/-- A specification with only the name set, every optional field unset and an
empty custom properties map. -/
def ProductSpecification.mkEmpty (n : String) : ProductSpecification :=
  ⟨n, Option.none, Option.none, Option.none, Option.none, Option.none, Option.none,
    Option.none, []⟩

/-- Python `product_data[key] >= bound` for a numeric bound. A non-numeric
value would raise a `TypeError` in Python; no claim reaches that case and the
embedding totalises it to `false`. -/
def numGe (v : PVal) (bound : ℚ) : Bool :=
  match v with
  | .num a => decide (bound ≤ a)
  | _ => false

/-- Python `product_data[key] <= bound` for a numeric bound (same totalisation
remark as `numGe`). -/
def numLe (v : PVal) (bound : ℚ) : Bool :=
  match v with
  | .num a => decide (a ≤ bound)
  | _ => false

/-- The one-sided/two-sided range logic of `is_satisfied_by` for
`temperature_range`/`pressure_range` (specifications.py lines 38-43 and
51-56): both bounds give the inclusive double bound, a single bound gives the
one-sided check, no bound at all writes nothing (`Option.none`). -/
def rangeVerdict (rng : Option ℚ × Option ℚ) (v : PVal) : Option Bool :=
  match rng.1, rng.2 with
  | some mn, some mx => some (numGe v mn && numLe v mx)
  | some mn, Option.none => some (numGe v mn)
  | Option.none, some mx => some (numLe v mx)
  | Option.none, Option.none => Option.none

/-- Python chained `mn <= v <= mx` between modelled values (custom-property
range check, specifications.py line 62). Non-numeric operands would raise in
Python; no claim reaches that case. -/
def betweenVerdict (mn v mx : PVal) : Bool :=
  match mn, v, mx with
  | .num a, .num b, .num c => decide (a ≤ b) && decide (b ≤ c)
  | _, _, _ => false

/-- Purity criterion of `is_satisfied_by` (specifications.py lines 21-22). -/
def checkPurity (spec : ProductSpecification) (data : List (String × PVal))
    (r : List (String × Bool)) : List (String × Bool) :=
  match spec.purity, pyGet data "purity" with
  | some p, some v => dictInsert r "purity" (numGe v p)
  | _, _ => r

/-- Yield criterion of `is_satisfied_by` (specifications.py lines 25-26). -/
def checkYield (spec : ProductSpecification) (data : List (String × PVal))
    (r : List (String × Bool)) : List (String × Bool) :=
  match spec.yield_requirement, pyGet data "yield" with
  | some y, some v => dictInsert r "yield" (numGe v y)
  | _, _ => r

/-- State criterion of `is_satisfied_by` (specifications.py lines 29-30):
equality between the product's state value and the specified literal. -/
def checkState (spec : ProductSpecification) (data : List (String × PVal))
    (r : List (String × Bool)) : List (String × Bool) :=
  match spec.state, pyGet data "state" with
  | some st, some v => dictInsert r "state" (PVal.pyEq v (PVal.str st))
  | _, _ => r

/-- Temperature criterion of `is_satisfied_by` (specifications.py
lines 33-43). -/
def checkTemperature (spec : ProductSpecification) (data : List (String × PVal))
    (r : List (String × Bool)) : List (String × Bool) :=
  match spec.temperature_range, pyGet data "temperature" with
  | some rng, some v =>
    match rangeVerdict rng v with
    | some b => dictInsert r "temperature" b
    | Option.none => r
  | _, _ => r

/-- Pressure criterion of `is_satisfied_by` (specifications.py lines 46-56). -/
def checkPressure (spec : ProductSpecification) (data : List (String × PVal))
    (r : List (String × Bool)) : List (String × Bool) :=
  match spec.pressure_range, pyGet data "pressure" with
  | some rng, some v =>
    match rangeVerdict rng v with
    | some b => dictInsert r "pressure" b
    | Option.none => r
  | _, _ => r

/-- One custom-property criterion of `is_satisfied_by` (specifications.py
lines 59-64): a dict value carrying BOTH a `min` and a `max` key is a range
check; every other value (including a dict with only one bound) is an
equality check against the product's value. -/
def checkCustom (data : List (String × PVal)) (r : List (String × Bool))
    (pn : String) (pv : PVal) : List (String × Bool) :=
  match pv with
  | .dict d =>
    if containsKey d "min" && containsKey d "max" then
      match pyGet data pn with
      | some v =>
        dictInsert r pn (betweenVerdict ((pyGet d "min").getD PVal.null) v
          ((pyGet d "max").getD PVal.null))
      | Option.none => r
    else
      match pyGet data pn with
      | some v => dictInsert r pn (PVal.pyEq v pv)
      | Option.none => r
  | _ =>
    match pyGet data pn with
    | some v => dictInsert r pn (PVal.pyEq v pv)
    | Option.none => r

/-- `ProductSpecification.is_satisfied_by` (specifications.py lines 16-66):
evaluates the five built-in criteria in source order into an initially empty
verdict dict, then folds the custom-property criteria over it. -/
def ProductSpecification.is_satisfied_by (spec : ProductSpecification)
    (data : List (String × PVal)) : List (String × Bool) :=
  spec.properties.foldl (fun r kv => checkCustom data r kv.1 kv.2)
    (checkPressure spec data
      (checkTemperature spec data
        (checkState spec data
          (checkYield spec data
            (checkPurity spec data [])))))

/-- `ProductSpecification.all_specifications_met` (specifications.py
lines 68-71): `all` over the verdict dict's values. -/
def ProductSpecification.all_specifications_met (spec : ProductSpecification)
    (data : List (String × PVal)) : Bool :=
  (spec.is_satisfied_by data).all (fun kv => kv.2)

/-- Statement-side predicate: the specification populates a field that the
criterion with output key `k` reads — the matching built-in field, or an
entry of the custom `properties` map under that same key. -/
def specPopulates (spec : ProductSpecification) (k : String) : Prop :=
  (k = "purity" ∧ spec.purity ≠ Option.none) ∨
  (k = "yield" ∧ spec.yield_requirement ≠ Option.none) ∨
  (k = "state" ∧ spec.state ≠ Option.none) ∨
  (k = "temperature" ∧ spec.temperature_range ≠ Option.none) ∨
  (k = "pressure" ∧ spec.pressure_range ≠ Option.none) ∨
  containsKey spec.properties k = true

/-- State classification of `extract_product_properties` (parser.py
lines 28-30): vapor above 0.99 vapor fraction, liquid below 0.01, otherwise
mixed. -/
def classifyState (vf : ℚ) : String :=
  if 99/100 < vf then "vapor" else if vf < 1/100 then "liquid" else "mixed"

/-- `stream_data.get("vapor_fraction", 0)` as a number (parser.py lines
28-29). A present non-numeric value would raise in Python's comparison; no
claim reaches that case. -/
def vaporFractionOf (fields : List (String × PVal)) : ℚ :=
  match pyGet fields "vapor_fraction" with
  | some (.num q) => q
  | _ => 0

/-- `stream_data.get("composition", {})` as a dict (parser.py line 34 and
lines 104/112). A present non-dict value would raise in Python at
`.values()`/`.items()`; no claim reaches that case. -/
def compositionEntries (fields : List (String × PVal)) : List (String × PVal) :=
  match pyGet fields "composition" with
  | some (.dict entries) => entries
  | _ => []

/-- `max(mass_fractions.items(), key=...) if mass_fractions else (None, 0)`
(parser.py line 40): the first entry attaining the maximal fraction, or
`(None, 0)` on an empty dict. -/
def mainComponentOf (fracs : List (String × ℚ)) : Option String × ℚ :=
  match fracs with
  | [] => (Option.none, 0)
  | x :: xs =>
    let m := xs.foldl (fun best y => if best.2 < y.2 then y else best) x
    (some m.1, m.2)

/-- `total_flow = sum(composition.values())` (parser.py line 36). -/
def totalFlowOf (comp : List (String × PVal)) : ℚ :=
  (comp.map (fun kv => asNum kv.2)).sum

/-- The normalized mass-fraction dict (parser.py line 37): every entry is
kept — divided by the total flow — exactly when the total flow is positive,
so a non-positive total yields the empty dict. -/
def massFractions (comp : List (String × PVal)) : List (String × ℚ) :=
  if 0 < totalFlowOf comp then comp.map (fun kv => (kv.1, asNum kv.2 / totalFlowOf comp))
  else []

/-- The temperature/pressure/state base dict of a derived properties entry
(parser.py lines 25-31). -/
def buildPropsBase (fields : List (String × PVal)) : List (String × PVal) :=
  [("temperature", (pyGet fields "temperature").getD PVal.null),
   ("pressure", (pyGet fields "pressure").getD PVal.null),
   ("state", PVal.str (classifyState (vaporFractionOf fields)))]

/-- The per-stream properties dict built by `extract_product_properties`
(parser.py lines 25-44): the base dict, extended — only when the raw
composition dict is non-empty — with the normalized composition, the main
component and its purity. A non-empty composition whose flows sum to zero
yields an empty `composition`, a `None` `main_component` and a purity of 0. -/
def buildProps (fields : List (String × PVal)) : List (String × PVal) :=
  if (compositionEntries fields).isEmpty then buildPropsBase fields
  else
    buildPropsBase fields ++
      [("composition", PVal.dict ((massFractions (compositionEntries fields)).map
          (fun kv => (kv.1, PVal.num kv.2)))),
       ("main_component",
         (match (mainComponentOf (massFractions (compositionEntries fields))).1 with
          | some s => PVal.str s
          | Option.none => PVal.null)),
       ("purity", PVal.num (mainComponentOf (massFractions (compositionEntries fields))).2)]

/-- The properties `extract_product_properties` computes for one requested
stream id: `Option.none` when the id is absent from the results (silently
skipped). A non-dict entry would raise in Python; no claim reaches it. -/
def propsFor (results : List (String × PVal)) (sid : String) :
    Option (List (String × PVal)) :=
  match pyGet results sid with
  | some (.dict fields) => some (buildProps fields)
  | _ => Option.none

/-- `SimulationResultParser.extract_product_properties` (parser.py
lines 8-48). -/
def extract_product_properties (results : List (String × PVal))
    (product_streams : List String) : List (String × List (String × PVal)) :=
  product_streams.foldl (fun acc sid =>
    match propsFor results sid with
    | some p => dictInsert acc sid p
    | Option.none => acc) []

/-- The name-keyed specification lookup of `check_specifications`
(parser.py line 67); a duplicated name keeps the later specification. -/
def specDictOf (specs : List ProductSpecification) :
    List (String × ProductSpecification) :=
  specs.foldl (fun d sp => dictInsert d sp.name sp) []

/-- `properties.get("main_component")` filtered by Python truthiness
(parser.py lines 71-73): `None`, a missing key or an empty string resolve to
nothing. A non-string value is never a key of the name-keyed dict (the
entries `extract_product_properties` builds carry only a string or `None`
there). -/
def resolveMainComponent (p : List (String × PVal)) : Option String :=
  match pyGet p "main_component" with
  | some (.str s) => if s = "" then Option.none else some s
  | _ => Option.none

/-- One iteration of the `check_specifications` loop (parser.py
lines 69-77): a resolving, known main component records the verdict dict
keyed by the specification name. -/
def csStep (spec_dict : List (String × ProductSpecification))
    (acc : List (String × List (String × Bool)))
    (entry : String × List (String × PVal)) :
    List (String × List (String × Bool)) :=
  match resolveMainComponent entry.2 with
  | some pn =>
    match pyGet spec_dict pn with
    | some sp => dictInsert acc pn (sp.is_satisfied_by entry.2)
    | Option.none => acc
  | Option.none => acc

/-- `SimulationResultParser.check_specifications` (parser.py lines 50-79). -/
def check_specifications (product_properties : List (String × List (String × PVal)))
    (specs : List ProductSpecification) : List (String × List (String × Bool)) :=
  product_properties.foldl (csStep (specDictOf specs)) []

/-- A results entry counts as a stream for the mass balance iff it is a dict
containing a `composition` key (parser.py line 92). -/
def isStreamRecord : PVal → Bool
  | .dict fields => containsKey fields "composition"
  | _ => false

/-- The stream ids of a results mapping, in iteration order (parser.py
line 92). -/
def streamIdsOf (results : List (String × PVal)) : List String :=
  (results.filter (fun e => isStreamRecord e.2)).map Prod.fst

/-- `input_streams` (parser.py line 96): stream ids prefixed `FEED`. -/
def inputStreamIds (results : List (String × PVal)) : List String :=
  (streamIdsOf results).filter (fun s => pyStartsWith s "FEED")

/-- `output_streams` (parser.py line 97): stream ids prefixed `PRODUCT` or
not occurring among the input streams. -/
def outputStreamIds (results : List (String × PVal)) : List String :=
  (streamIdsOf results).filter
    (fun s => pyStartsWith s "PRODUCT" || !((inputStreamIds results).contains s))

/-- The composition dict of a stream entry (parser.py lines 104/112). -/
def compositionOf (results : List (String × PVal)) (sid : String) :
    List (String × PVal) :=
  match pyGet results sid with
  | some (.dict fields) => compositionEntries fields
  | _ => []

/-- One `component_balance` update (parser.py lines 105-108 and 113-116):
initialise a missing component to zero totals, then add the flow to the
input or the output side. -/
def balAdd (isInput : Bool) (bal : List (String × ℚ × ℚ)) (comp : String)
    (flow : ℚ) : List (String × ℚ × ℚ) :=
  match isInput with
  | true =>
    dictInsert bal comp
      (((pyGet bal comp).getD (0, 0)).1 + flow, ((pyGet bal comp).getD (0, 0)).2)
  | false =>
    dictInsert bal comp
      (((pyGet bal comp).getD (0, 0)).1, ((pyGet bal comp).getD (0, 0)).2 + flow)

/-- Accumulate one stream's composition into the balance (parser.py
lines 103-108 / 111-116). -/
def accumStream (isInput : Bool) (results : List (String × PVal))
    (bal : List (String × ℚ × ℚ)) (sid : String) : List (String × ℚ × ℚ) :=
  (compositionOf results sid).foldl (fun b kv => balAdd isInput b kv.1 (asNum kv.2)) bal

/-- `SimulationResultParser.check_mass_balance` (parser.py lines 82-126):
accumulate input then output totals per component, then report the relative
error for every component whose input total is positive. -/
def check_mass_balance (results : List (String × PVal)) : List (String × ℚ) :=
  let bal1 := (inputStreamIds results).foldl (accumStream true results) []
  let bal2 := (outputStreamIds results).foldl (accumStream false results) bal1
  bal2.foldl (fun errs entry =>
    if 0 < entry.2.1 then errs ++ [(entry.1, (entry.2.2 - entry.2.1) / entry.2.1)]
    else errs) []

/-- Statement-side: the total flow of one component in one stream's
composition. -/
def flowOf (results : List (String × PVal)) (sid comp : String) : ℚ :=
  (((compositionOf results sid).filter (fun kv => kv.1 = comp)).map
    (fun kv => asNum kv.2)).sum

/-- Statement-side: the claim's input total of a component — summed over the
streams whose id starts with `FEED`. -/
def inputTotal (results : List (String × PVal)) (comp : String) : ℚ :=
  ((inputStreamIds results).map (fun sid => flowOf results sid comp)).sum

/-- Statement-side: the claim's output streams — every stream whose id does
not start with `FEED`. -/
def claimOutputIds (results : List (String × PVal)) : List String :=
  (streamIdsOf results).filter (fun s => !(pyStartsWith s "FEED"))

/-- Statement-side: the claim's output total of a component — summed over
all non-`FEED` streams. -/
def outputTotal (results : List (String × PVal)) (comp : String) : ℚ :=
  ((claimOutputIds results).map (fun sid => flowOf results sid comp)).sum

/-- The diagnostic line of `analyze_simulation_errors` (parser.py
line 166). -/
def blockErrorMessage (bid st : String) : String :=
  "Block " ++ bid ++ " has status: " ++ st

/-- Python `s.lower()`, modelled per character; Python lowercasing agrees
with this on the ASCII statuses the engine reports. -/
def pyLower (s : String) : String :=
  ⟨s.data.map Char.toLower⟩

/-- The status filter of `analyze_simulation_errors` (parser.py
lines 164-165): `status = block_data.get("status")` followed by
`if status and status.lower() != "ok"`. A missing key, a `None` value and an
empty string are all falsy and produce nothing; a truthy non-string would
raise at `.lower()` — no claim reaches it. -/
def flaggedStatus (fields : List (String × PVal)) : Option String :=
  match pyGet fields "status" with
  | some (.str st) =>
    if st = "" then Option.none
    else if pyLower st = "ok" then Option.none
    else some st
  | _ => Option.none

/-- `SimulationResultParser.analyze_simulation_errors` (parser.py
lines 149-168). -/
def analyze_simulation_errors (results : List (String × PVal)) : List String :=
  results.foldl (fun errs entry =>
    match entry.2 with
    | .dict fields =>
      if containsKey fields "type" then
        match flaggedStatus fields with
        | some st => errs ++ [blockErrorMessage entry.1 st]
        | Option.none => errs
      else errs
    | _ => errs) []

/-- Statement-side: the diagnostic an entry contributes, if any — a dict
entry with a `type` key and a flagged status yields one message. -/
def diagnosticOf (entry : String × PVal) : Option String :=
  match entry.2 with
  | .dict fields =>
    if containsKey fields "type" then (flaggedStatus fields).map (blockErrorMessage entry.1)
    else Option.none
  | _ => Option.none

/-- Model of `RawMaterial` (src/models/materials.py). -/
structure RawMaterial where
  name : String
  chemical_formula : Option String
  cas_number : Option String
  amount : Option ℚ
  units : Option String
  state : Option String
  temperature : Option ℚ
  pressure : Option ℚ
  properties : List (String × PVal)

/-- Model of the orchestrator state (`ProcessSimulation.__init__`,
simulation.py lines 14-24). -/
structure ProcessSimulation where
  aspen_path : String
  template_path : Option String
  initialized : Bool

/-- A freshly constructed orchestrator: not initialized. -/
def ProcessSimulation.mkNew (aspen_path : String) (template_path : Option String) :
    ProcessSimulation :=
  { aspen_path := aspen_path, template_path := template_path, initialized := false }

/-- Model of the orchestrator's initialisation method (simulation.py
lines 26-32) against an engine whose create/load outcomes are given: the
initialized flag is set exactly when both succeed. -/
def ProcessSimulation.initSession (s : ProcessSimulation) (engineOk loadOk : Bool) :
    ProcessSimulation × Bool :=
  if engineOk then
    if loadOk then ({ s with initialized := true }, true) else (s, false)
  else (s, false)

/-- Python `value or default` on an optional number (simulation.py
lines 54-56): the default replaces `None` AND any falsy value — in
particular an explicit 0. -/
def pyOrDefault (v : Option ℚ) (dflt : ℚ) : ℚ :=
  match v with
  | some x => if x = 0 then dflt else x
  | Option.none => dflt

/-- The stream payload handed to `add_stream` for one material
(simulation.py lines 53-57). -/
structure StreamData where
  temperature : ℚ
  pressure : ℚ
  composition : List (String × ℚ)
deriving DecidableEq

/-- The payload built for one raw material: `or`-defaulted temperature
(298.15), pressure (101325) and single-component amount (100). -/
def mkFeedStream (m : RawMaterial) : StreamData :=
  { temperature := pyOrDefault m.temperature (29815/100),
    pressure := pyOrDefault m.pressure 101325,
    composition := [(m.name, pyOrDefault m.amount 100)] }

/-- The feed-stream creation loop of `setup_materials` (simulation.py
lines 49-60): `f"FEED_{i+1}"` ids in list order, starting the index at the
given value. -/
def feedStreams : ℕ → List RawMaterial → List (String × StreamData)
  | _, [] => []
  | i, m :: ms => ("FEED_" ++ toString (i + 1), mkFeedStream m) :: feedStreams (i + 1) ms

/-- `ProcessSimulation.setup_materials` (simulation.py lines 34-65): fails
fast when not initialized, otherwise registers the components (a straight
pass-through to the adapter, not part of any claim) and returns success
together with the trace of `add_stream` calls. The modelled adapter calls
are total, so the `except` branch is never taken. -/
def ProcessSimulation.setup_materials (s : ProcessSimulation)
    (materials : List RawMaterial) : Bool × List (String × StreamData) :=
  if s.initialized then (true, feedStreams 0 materials) else (false, [])

/-- The engine calls `run` can issue (simulation.py lines 100-102). -/
inductive EngineCall where
  | runSimulation
  | getSimulationResults
deriving DecidableEq

/-- The engine's behaviour when `run` reaches it: a successful run with
results, a failing status code, or an adapter exception. -/
inductive EngineOutcome where
  | ok (results : List (String × PVal))
  | failStatus
  | raise

/-- `ProcessSimulation.run` (simulation.py lines 92-108) against a given
engine outcome, returning the (success, results) pair together with the
trace of engine calls: nothing is called when not initialized, and every
failure path returns `(False, {})`. -/
def ProcessSimulation.run (s : ProcessSimulation) (eng : EngineOutcome) :
    (Bool × List (String × PVal)) × List EngineCall :=
  if s.initialized then
    match eng with
    | .ok results =>
      ((true, results), [EngineCall.runSimulation, EngineCall.getSimulationResults])
    | .failStatus => ((false, []), [EngineCall.runSimulation])
    | .raise => ((false, []), [EngineCall.runSimulation])
  else ((false, []), [])

/-- Witness material for C1: every optional numeric field explicitly set
to 0. -/
def exMatZero : RawMaterial :=
  { name := "A", chemical_formula := Option.none, cas_number := Option.none,
    amount := some 0, units := Option.none, state := Option.none,
    temperature := some 0, pressure := some 0, properties := [] }

/-- An initialized orchestrator used by concrete examples. -/
def exSimInit : ProcessSimulation :=
  { aspen_path := "aspen", template_path := Option.none, initialized := true }

/-- C2 counterexample specification: one custom property with only a `min`
bound. -/
def exSpecC2 : ProductSpecification :=
  { ProductSpecification.mkEmpty "P" with properties := [("p", PVal.dict [("min", PVal.num 1)])] }

/-- C2 counterexample product data: the property is present and numeric. -/
def exDataC2 : List (String × PVal) :=
  [("p", PVal.num 5)]

/-- C2 witness specification: one custom property with both bounds. -/
def exSpecC2w : ProductSpecification :=
  { ProductSpecification.mkEmpty "P" with
    properties := [("density", PVal.dict [("min", PVal.num 1), ("max", PVal.num 5)])] }

/-- C2 witness product data. -/
def exDataC2w : List (String × PVal) :=
  [("density", PVal.num 3)]

/-- C3 example results: one stream with a non-empty composition whose flows
sum to zero. -/
def exResultsC3 : List (String × PVal) :=
  [("S", PVal.dict [("composition", PVal.dict [("A", PVal.num 0)])])]

/-- C5 counterexample specification: a gas state requirement together with a
custom property that shares the `state` key. -/
def exSpecC5 : ProductSpecification :=
  { ProductSpecification.mkEmpty "X" with
    state := some "gas", properties := [("state", PVal.str "vapor")] }

/-- C5 example results: one fully vaporised stream (no composition data,
which no part of the state classification needs). -/
def exResultsC5 : List (String × PVal) :=
  [("S", PVal.dict [("vapor_fraction", PVal.num 1)])]

/-- The properties entry derived from `exResultsC5`. -/
def exEntryC5 : List (String × PVal) :=
  (pyGet (extract_product_properties exResultsC5 ["S"]) "S").getD []

/-- C5 witness specification: a solid state requirement with no custom
property named `state`. -/
def exSpecC5w : ProductSpecification :=
  { ProductSpecification.mkEmpty "X" with state := some "solid" }

/-- C6 witness specifications: one specification named Ethanol. -/
def exSpecC6 : ProductSpecification :=
  { ProductSpecification.mkEmpty "Ethanol" with purity := some (9/10) }

/-- C6 witness: first stream entry resolving to Ethanol. -/
def exP1C6 : List (String × PVal) :=
  [("main_component", PVal.str "Ethanol"), ("purity", PVal.num (8/10))]

/-- C6 witness: second stream entry resolving to Ethanol. -/
def exP2C6 : List (String × PVal) :=
  [("main_component", PVal.str "Ethanol"), ("purity", PVal.num (95/100))]

/-- C7 witness specification: a populated purity criterion. -/
def exSpecC7 : ProductSpecification :=
  { ProductSpecification.mkEmpty "W" with purity := some 1 }

/-- C4 example (from the claim): one feed and one non-feed stream carrying
component A. -/
def exResultsC4a : List (String × PVal) :=
  [("FEED_1", PVal.dict [("composition", PVal.dict [("A", PVal.num 100)])]),
   ("X", PVal.dict [("composition", PVal.dict [("A", PVal.num 90)])])]

/-- C4 example: component B occurs only in an output stream. -/
def exResultsC4b : List (String × PVal) :=
  [("FEED_1", PVal.dict [("composition", PVal.dict [("A", PVal.num 100)])]),
   ("X", PVal.dict [("composition", PVal.dict [("B", PVal.num 5)])])]

/-- C4 counterexample: a negative feed flow, so component A's input total is
nonzero yet not positive. -/
def exResultsC4c : List (String × PVal) :=
  [("FEED_1", PVal.dict [("composition", PVal.dict [("A", PVal.num (-100))])]),
   ("X", PVal.dict [("composition", PVal.dict [("A", PVal.num 90)])])]

/-- C9 counterexample: a block whose status is present but empty. -/
def exResultsC9 : List (String × PVal) :=
  [("B1", PVal.dict [("type", PVal.str "X"), ("status", PVal.str "")])]

/-- C9 example from the claim: an erroring block and an OK block. -/
def exResultsC9ok : List (String × PVal) :=
  [("R1", PVal.dict [("type", PVal.str "Reactor"), ("status", PVal.str "Error")]),
   ("R2", PVal.dict [("type", PVal.str "Reactor"), ("status", PVal.str "OK")])]

theorem pyGet_dictInsert {α : Type} (d : List (String × α)) (k c : String) (v : α) :
    pyGet (dictInsert d k v) c = if c = k then some v else pyGet d c := by
  induction d with
  | nil =>
    simp only [dictInsert, pyGet]
    by_cases h : c = k
    · simp [h]
    · rw [if_neg (fun hx : k = c => h hx.symm), if_neg h]
  | cons kv d ih =>
    by_cases hk : kv.1 = k
    · subst hk
      by_cases hc : c = kv.1
      · simp [dictInsert, pyGet, hc]
      · have h1 : ¬ kv.1 = c := fun hx => hc hx.symm
        simp [dictInsert, pyGet, h1, hc]
    · by_cases hc : kv.1 = c
      · have : ¬ c = k := fun h => hk (hc.trans h)
        simp [dictInsert, pyGet, hk, hc, this]
      · simp [dictInsert, pyGet, hk, hc, ih]

theorem mem_keys_dictInsert {α : Type} (d : List (String × α)) (k c : String) (v : α) :
    c ∈ (dictInsert d k v).map Prod.fst ↔ c = k ∨ c ∈ d.map Prod.fst := by
  induction d with
  | nil => simp [dictInsert]
  | cons kv d ih =>
    by_cases hk : kv.1 = k
    · subst hk
      simp [dictInsert]
    · simp [dictInsert, hk, ih]
      tauto

theorem nodup_keys_dictInsert {α : Type} (d : List (String × α)) (k : String) (v : α)
    (h : (d.map Prod.fst).Nodup) : ((dictInsert d k v).map Prod.fst).Nodup := by
  induction d with
  | nil => simp [dictInsert]
  | cons kv d ih =>
    simp only [List.map_cons, List.nodup_cons] at h
    by_cases hk : kv.1 = k
    · subst hk
      simpa [dictInsert] using h
    · simp only [dictInsert, if_neg hk, List.map_cons, List.nodup_cons]
      refine ⟨?_, ih h.2⟩
      rw [mem_keys_dictInsert]
      rintro (hc | hc)
      · exact hk hc
      · exact h.1 hc

theorem containsKey_eq_false_iff {α : Type} (d : List (String × α)) (k : String) :
    containsKey d k = false ↔ pyGet d k = none := by
  unfold containsKey
  cases pyGet d k <;> simp

theorem pyGet_eq_none_of_not_mem_keys {α : Type} (d : List (String × α)) (k : String)
    (h : k ∉ d.map Prod.fst) : pyGet d k = none := by
  induction d with
  | nil => simp [pyGet]
  | cons kv d ih =>
    simp only [List.map_cons, List.mem_cons, not_or] at h
    have : ¬ kv.1 = k := fun hc => h.1 hc.symm
    simp [pyGet, this, ih h.2]

theorem pyGet_isSome_of_mem_keys {α : Type} (d : List (String × α)) (k : String)
    (h : k ∈ d.map Prod.fst) : (pyGet d k).isSome := by
  induction d with
  | nil => simp at h
  | cons kv d ih =>
    by_cases hk : kv.1 = k
    · simp [pyGet, hk]
    · simp only [List.map_cons, List.mem_cons] at h
      rcases h with h | h
      · exact absurd h.symm hk
      · simp [pyGet, hk, ih h]

theorem checkPurity_skip (spec : ProductSpecification) (data : List (String × PVal))
    (r : List (String × Bool)) (k : String)
    (h : k ≠ "purity" ∨ spec.purity = Option.none ∨ pyGet data "purity" = Option.none) :
    pyGet (checkPurity spec data r) k = pyGet r k := by
  rcases hp : spec.purity with _ | p
  · simp [checkPurity, hp]
  · rcases hd : pyGet data "purity" with _ | v
    · simp [checkPurity, hp, hd]
    · rcases h with h | h | h
      · simp [checkPurity, hp, hd, pyGet_dictInsert, h]
      · rw [h] at hp; cases hp
      · rw [h] at hd; cases hd

theorem checkYield_skip (spec : ProductSpecification) (data : List (String × PVal))
    (r : List (String × Bool)) (k : String)
    (h : k ≠ "yield" ∨ spec.yield_requirement = Option.none ∨
      pyGet data "yield" = Option.none) :
    pyGet (checkYield spec data r) k = pyGet r k := by
  rcases hp : spec.yield_requirement with _ | p
  · simp [checkYield, hp]
  · rcases hd : pyGet data "yield" with _ | v
    · simp [checkYield, hp, hd]
    · rcases h with h | h | h
      · simp [checkYield, hp, hd, pyGet_dictInsert, h]
      · rw [h] at hp; cases hp
      · rw [h] at hd; cases hd

theorem checkState_skip (spec : ProductSpecification) (data : List (String × PVal))
    (r : List (String × Bool)) (k : String)
    (h : k ≠ "state" ∨ spec.state = Option.none ∨ pyGet data "state" = Option.none) :
    pyGet (checkState spec data r) k = pyGet r k := by
  rcases hp : spec.state with _ | p
  · simp [checkState, hp]
  · rcases hd : pyGet data "state" with _ | v
    · simp [checkState, hp, hd]
    · rcases h with h | h | h
      · simp [checkState, hp, hd, pyGet_dictInsert, h]
      · rw [h] at hp; cases hp
      · rw [h] at hd; cases hd

theorem checkTemperature_skip (spec : ProductSpecification) (data : List (String × PVal))
    (r : List (String × Bool)) (k : String)
    (h : k ≠ "temperature" ∨ spec.temperature_range = Option.none ∨
      pyGet data "temperature" = Option.none) :
    pyGet (checkTemperature spec data r) k = pyGet r k := by
  rcases hp : spec.temperature_range with _ | rng
  · simp [checkTemperature, hp]
  · rcases hd : pyGet data "temperature" with _ | v
    · simp [checkTemperature, hp, hd]
    · rcases h with h | h | h
      · rcases hr : rangeVerdict rng v with _ | b
        · simp [checkTemperature, hp, hd, hr]
        · simp [checkTemperature, hp, hd, hr, pyGet_dictInsert, h]
      · rw [h] at hp; cases hp
      · rw [h] at hd; cases hd

theorem checkPressure_skip (spec : ProductSpecification) (data : List (String × PVal))
    (r : List (String × Bool)) (k : String)
    (h : k ≠ "pressure" ∨ spec.pressure_range = Option.none ∨
      pyGet data "pressure" = Option.none) :
    pyGet (checkPressure spec data r) k = pyGet r k := by
  rcases hp : spec.pressure_range with _ | rng
  · simp [checkPressure, hp]
  · rcases hd : pyGet data "pressure" with _ | v
    · simp [checkPressure, hp, hd]
    · rcases h with h | h | h
      · rcases hr : rangeVerdict rng v with _ | b
        · simp [checkPressure, hp, hd, hr]
        · simp [checkPressure, hp, hd, hr, pyGet_dictInsert, h]
      · rw [h] at hp; cases hp
      · rw [h] at hd; cases hd

theorem checkCustom_skip (data : List (String × PVal)) (r : List (String × Bool))
    (pn : String) (pv : PVal) (k : String)
    (h : k ≠ pn ∨ pyGet data pn = Option.none) :
    pyGet (checkCustom data r pn pv) k = pyGet r k := by
  have hins : ∀ b : Bool, pyGet data pn = Option.none ∨
      pyGet (dictInsert r pn b) k = pyGet r k := by
    intro b
    rcases h with h | h
    · right; simp [pyGet_dictInsert, h]
    · left; exact h
  cases pv with
  | dict d =>
    by_cases hb : (containsKey d "min" && containsKey d "max") = true
    · rcases hd : pyGet data pn with _ | v
      · simp [checkCustom, hb, hd]
      · rcases hins (betweenVerdict ((pyGet d "min").getD PVal.null) v
          ((pyGet d "max").getD PVal.null)) with hc | hc
        · rw [hc] at hd; cases hd
        · simpa [checkCustom, hb, hd] using hc
    · rcases hd : pyGet data pn with _ | v
      · simp [checkCustom, hb, hd]
      · rcases hins (PVal.pyEq v (PVal.dict d)) with hc | hc
        · rw [hc] at hd; cases hd
        · simpa [checkCustom, hb, hd] using hc
  | num q =>
    rcases hd : pyGet data pn with _ | v
    · simp [checkCustom, hd]
    · rcases hins (PVal.pyEq v (PVal.num q)) with hc | hc
      · rw [hc] at hd; cases hd
      · simpa [checkCustom, hd] using hc
  | str s =>
    rcases hd : pyGet data pn with _ | v
    · simp [checkCustom, hd]
    · rcases hins (PVal.pyEq v (PVal.str s)) with hc | hc
      · rw [hc] at hd; cases hd
      · simpa [checkCustom, hd] using hc
  | null =>
    rcases hd : pyGet data pn with _ | v
    · simp [checkCustom, hd]
    · rcases hins (PVal.pyEq v PVal.null) with hc | hc
      · rw [hc] at hd; cases hd
      · simpa [checkCustom, hd] using hc

theorem containsKey_cons_eq_false {α : Type} (kv : String × α) (tl : List (String × α))
    (k : String) (h : containsKey (kv :: tl) k = false) :
    kv.1 ≠ k ∧ containsKey tl k = false := by
  by_cases hk : kv.1 = k
  · exfalso
    simp [containsKey, pyGet, hk] at h
  · refine ⟨hk, ?_⟩
    simpa [containsKey, pyGet, hk] using h

theorem customFold_skip (data : List (String × PVal)) (props : List (String × PVal))
    (r : List (String × Bool)) (k : String)
    (h : containsKey props k = false ∨ pyGet data k = Option.none) :
    pyGet (props.foldl (fun r kv => checkCustom data r kv.1 kv.2) r) k = pyGet r k := by
  induction props generalizing r with
  | nil => rfl
  | cons kv tl ih =>
    rcases h with h | h
    · obtain ⟨hne, htl⟩ := containsKey_cons_eq_false kv tl k h
      rw [List.foldl_cons, ih (checkCustom data r kv.1 kv.2) (Or.inl htl),
        checkCustom_skip data r kv.1 kv.2 k (Or.inl (fun hc => hne hc.symm))]
    · rw [List.foldl_cons, ih (checkCustom data r kv.1 kv.2) (Or.inr h)]
      by_cases hk : k = kv.1
      · rw [checkCustom_skip data r kv.1 kv.2 k (Or.inr (hk ▸ h))]
      · rw [checkCustom_skip data r kv.1 kv.2 k (Or.inl hk)]

/-- Claim C7: for every ProductSpecification and every product_data, whenever
either the specification leaves the field a criterion reads unset, or
product_data lacks the field a populated criterion refers to, that criterion
key is absent from the mapping returned by is_satisfied_by — never present
with value False merely because the data is missing. -/
theorem C7_unknown_criterion_is_omitted (spec : ProductSpecification)
    (data : List (String × PVal)) (k : String)
    (h : ¬ specPopulates spec k ∨ pyGet data k = Option.none) :
    pyGet (spec.is_satisfied_by data) k = Option.none := by
  have hfold : containsKey spec.properties k = false ∨ pyGet data k = Option.none := by
    rcases h with h | h
    · left
      unfold specPopulates at h
      push_neg at h
      exact Bool.not_eq_true _ ▸ (by simpa using h.2.2.2.2.2)
    · right; exact h
  have hpur : k ≠ "purity" ∨ spec.purity = Option.none ∨
      pyGet data "purity" = Option.none := by
    rcases h with h | h
    · unfold specPopulates at h
      push_neg at h
      by_cases hk : k = "purity"
      · exact Or.inr (Or.inl (h.1 hk))
      · exact Or.inl hk
    · by_cases hk : k = "purity"
      · exact Or.inr (Or.inr (hk ▸ h))
      · exact Or.inl hk
  have hyld : k ≠ "yield" ∨ spec.yield_requirement = Option.none ∨
      pyGet data "yield" = Option.none := by
    rcases h with h | h
    · unfold specPopulates at h
      push_neg at h
      by_cases hk : k = "yield"
      · exact Or.inr (Or.inl (h.2.1 hk))
      · exact Or.inl hk
    · by_cases hk : k = "yield"
      · exact Or.inr (Or.inr (hk ▸ h))
      · exact Or.inl hk
  have hst : k ≠ "state" ∨ spec.state = Option.none ∨
      pyGet data "state" = Option.none := by
    rcases h with h | h
    · unfold specPopulates at h
      push_neg at h
      by_cases hk : k = "state"
      · exact Or.inr (Or.inl (h.2.2.1 hk))
      · exact Or.inl hk
    · by_cases hk : k = "state"
      · exact Or.inr (Or.inr (hk ▸ h))
      · exact Or.inl hk
  have htmp : k ≠ "temperature" ∨ spec.temperature_range = Option.none ∨
      pyGet data "temperature" = Option.none := by
    rcases h with h | h
    · unfold specPopulates at h
      push_neg at h
      by_cases hk : k = "temperature"
      · exact Or.inr (Or.inl (h.2.2.2.1 hk))
      · exact Or.inl hk
    · by_cases hk : k = "temperature"
      · exact Or.inr (Or.inr (hk ▸ h))
      · exact Or.inl hk
  have hprs : k ≠ "pressure" ∨ spec.pressure_range = Option.none ∨
      pyGet data "pressure" = Option.none := by
    rcases h with h | h
    · unfold specPopulates at h
      push_neg at h
      by_cases hk : k = "pressure"
      · exact Or.inr (Or.inl (h.2.2.2.2.1 hk))
      · exact Or.inl hk
    · by_cases hk : k = "pressure"
      · exact Or.inr (Or.inr (hk ▸ h))
      · exact Or.inl hk
  unfold ProductSpecification.is_satisfied_by
  rw [customFold_skip data spec.properties _ k hfold,
    checkPressure_skip spec data _ k hprs,
    checkTemperature_skip spec data _ k htmp,
    checkState_skip spec data _ k hst,
    checkYield_skip spec data _ k hyld,
    checkPurity_skip spec data _ k hpur]
  rfl

/-- Witness for C7 at a concrete input: a populated purity bound with product
data lacking the purity field leaves the purity criterion absent. -/
theorem C7_witness :
    (¬ specPopulates exSpecC7 "purity" ∨
      pyGet ([] : List (String × PVal)) "purity" = Option.none) ∧
    pyGet (exSpecC7.is_satisfied_by []) "purity" = Option.none :=
  ⟨Or.inr rfl, C7_unknown_criterion_is_omitted exSpecC7 [] "purity" (Or.inr rfl)⟩

/-- Claim C10: a ProductSpecification with no populated criterion fields
yields the empty verdict mapping on every product_data, and
all_specifications_met is then True. -/
theorem C10_empty_specification_vacuously_met (spec : ProductSpecification)
    (data : List (String × PVal))
    (h1 : spec.purity = Option.none) (h2 : spec.yield_requirement = Option.none)
    (h3 : spec.state = Option.none) (h4 : spec.temperature_range = Option.none)
    (h5 : spec.pressure_range = Option.none) (h6 : spec.properties = []) :
    spec.is_satisfied_by data = [] ∧ spec.all_specifications_met data = true := by
  have hsat : spec.is_satisfied_by data = [] := by
    unfold ProductSpecification.is_satisfied_by
    rw [h6]
    simp [checkPurity, checkYield, checkState, checkTemperature, checkPressure,
      h1, h2, h3, h4, h5]
  exact ⟨hsat, by simp [ProductSpecification.all_specifications_met, hsat]⟩

/-- Witness for C10 at a concrete input: the empty specification against
product data that does carry a purity value. -/
theorem C10_witness :
    (ProductSpecification.mkEmpty "E").is_satisfied_by [("purity", PVal.num 1)] = [] ∧
    (ProductSpecification.mkEmpty "E").all_specifications_met
      [("purity", PVal.num 1)] = true :=
  C10_empty_specification_vacuously_met (ProductSpecification.mkEmpty "E")
    [("purity", PVal.num 1)] rfl rfl rfl rfl rfl rfl

theorem feedStreams_length (ms : List RawMaterial) : ∀ k : ℕ,
    (feedStreams k ms).length = ms.length := by
  induction ms with
  | nil => intro k; rfl
  | cons m ms ih => intro k; simp [feedStreams, ih]

theorem feedStreams_getElem (ms : List RawMaterial) : ∀ (k i : ℕ),
    (feedStreams k ms)[i]? =
      (ms[i]?).map (fun m => ("FEED_" ++ toString (k + i + 1), mkFeedStream m)) := by
  induction ms with
  | nil => intro k i; simp [feedStreams]
  | cons m ms ih =>
    intro k i
    cases i with
    | zero => simp [feedStreams]
    | succ j =>
      simp only [feedStreams, List.getElem?_cons_succ]
      rw [ih (k + 1) j]
      have harith : k + 1 + j + 1 = k + (j + 1) + 1 := by omega
      rw [harith]

/-- Claim C8: calling run on a not-initialized orchestrator returns exactly
(False, {}) and issues no engine call; a freshly constructed orchestrator and
one whose initialize failed are not initialized; and whenever run does not
succeed it returns (False, {}), never a partial results mapping. -/
theorem C8_run_uninitialized_or_failed :
    (∀ (s : ProcessSimulation) (eng : EngineOutcome), s.initialized = false →
      s.run eng = ((false, []), [])) ∧
    (∀ (ap : String) (tp : Option String),
      (ProcessSimulation.mkNew ap tp).initialized = false) ∧
    (∀ (ap : String) (tp : Option String) (engineOk loadOk : Bool),
      ((ProcessSimulation.mkNew ap tp).initSession engineOk loadOk).2 = false →
      ((ProcessSimulation.mkNew ap tp).initSession engineOk loadOk).1.initialized = false) ∧
    (∀ (s : ProcessSimulation) (eng : EngineOutcome), (s.run eng).1.1 = false →
      (s.run eng).1 = (false, [])) := by
  refine ⟨?_, ?_, ?_, ?_⟩
  · intro s eng h
    simp [ProcessSimulation.run, h]
  · intro ap tp
    rfl
  · intro ap tp engineOk loadOk h
    cases engineOk <;> cases loadOk <;>
      simp_all [ProcessSimulation.initSession, ProcessSimulation.mkNew]
  · intro s eng h
    by_cases hi : s.initialized
    · cases eng with
      | ok results => simp [ProcessSimulation.run, hi] at h
      | failStatus => simp [ProcessSimulation.run, hi]
      | raise => simp [ProcessSimulation.run, hi]
    · simp only [Bool.not_eq_true] at hi
      simp [ProcessSimulation.run, hi]

/-- Witness for C8 at concrete inputs: a fresh orchestrator runs to
((False, {}), no calls), and a failing run on an initialized orchestrator
still returns (False, {}). -/
theorem C8_witness :
    (ProcessSimulation.mkNew "aspen" Option.none).run EngineOutcome.failStatus =
      ((false, []), []) ∧
    (exSimInit.run EngineOutcome.failStatus).1 = (false, []) :=
  ⟨C8_run_uninitialized_or_failed.1 (ProcessSimulation.mkNew "aspen" Option.none)
      EngineOutcome.failStatus rfl,
   C8_run_uninitialized_or_failed.2.2.2 exSimInit EngineOutcome.failStatus rfl⟩

/-- Counterexample for claim C1 as stated: a material whose amount,
temperature and pressure are all explicitly set to 0 does NOT keep those
values — Python's `or`-defaulting replaces any falsy value, so the stream
carries the defaults 298.15, 101325 and 100 instead of the set zeros the
claim requires. -/
theorem C1_counterexample :
    (exSimInit.setup_materials [exMatZero]).2 =
      [("FEED_1",
        ({ temperature := 29815/100, pressure := 101325,
           composition := [("A", 100)] } : StreamData))] ∧
    (exSimInit.setup_materials [exMatZero]).2 ≠
      [("FEED_1",
        ({ temperature := 0, pressure := 0,
           composition := [("A", 0)] } : StreamData))] := by
  have h1 : (exSimInit.setup_materials [exMatZero]).2 =
      [("FEED_1",
        ({ temperature := 29815/100, pressure := 101325,
           composition := [("A", 100)] } : StreamData))] := by
    norm_num [ProcessSimulation.setup_materials, feedStreams, mkFeedStream, pyOrDefault,
      exSimInit, exMatZero]
    decide
  refine ⟨h1, ?_⟩
  rw [h1]
  norm_num [StreamData.mk.injEq]

/-- Claim C1 (amended): on an initialized orchestrator, setup_materials
returns True and creates exactly one feed stream per material, named
FEED_1..FEED_n in list order; the i-th stream carries the single-entry
composition (name, amount), the material's temperature and pressure — with
the defaults 100 / 298.15 / 101325 substituted when the corresponding field
is unset OR set to 0, since Python's `or`-defaulting replaces any falsy
value, not only a missing one. -/
theorem C1_amended_setup_materials (ap : String) (tp : Option String)
    (ms : List RawMaterial) :
    (ProcessSimulation.setup_materials ⟨ap, tp, true⟩ ms).1 = true ∧
    (ProcessSimulation.setup_materials ⟨ap, tp, true⟩ ms).2.length = ms.length ∧
    ∀ i : ℕ, ((ProcessSimulation.setup_materials ⟨ap, tp, true⟩ ms).2)[i]? =
      (ms[i]?).map (fun m =>
        ("FEED_" ++ toString (i + 1),
         ({ temperature := (match m.temperature with
             | some t => if t = 0 then 29815/100 else t
             | Option.none => 29815/100),
            pressure := (match m.pressure with
             | some p => if p = 0 then 101325 else p
             | Option.none => 101325),
            composition := [(m.name, (match m.amount with
             | some a => if a = 0 then 100 else a
             | Option.none => 100))] } : StreamData))) := by
  refine ⟨rfl, ?_, ?_⟩
  · show (feedStreams 0 ms).length = ms.length
    exact feedStreams_length ms 0
  · intro i
    show (feedStreams 0 ms)[i]? = _
    rw [feedStreams_getElem ms 0 i]
    cases h : ms[i]? with
    | none => rfl
    | some m => simp [mkFeedStream, pyOrDefault]

theorem customFold_ne (data : List (String × PVal)) (props : List (String × PVal))
    (r : List (String × Bool)) (k : String) (h : ∀ kv ∈ props, kv.1 ≠ k) :
    pyGet (props.foldl (fun r kv => checkCustom data r kv.1 kv.2) r) k = pyGet r k := by
  induction props generalizing r with
  | nil => rfl
  | cons kv tl ih =>
    rw [List.foldl_cons, ih _ (fun x hx => h x (List.mem_cons_of_mem kv hx)),
      checkCustom_skip data r kv.1 kv.2 k
        (Or.inl (fun hc => h kv (List.mem_cons_self kv tl) hc.symm))]

/-- Counterexample for claim C2 as stated: with a custom property whose dict
holds only a min bound, the code does not apply the one-sided range check —
it falls into the equality branch, and a numeric value never equals a dict,
so the verdict is False even though the value satisfies the min bound. -/
theorem C2_counterexample :
    pyGet (exSpecC2.is_satisfied_by exDataC2) "p" = some false ∧
    decide ((1:ℚ) ≤ 5) = true := by
  constructor
  · rfl
  · norm_num

/-- Claim C2 (amended): for a custom property p of the specification's
properties map whose value is a dict, and product data carrying a numeric
value v at p: if the dict lacks the min key or the max key, the emitted
criterion p is the equality-check verdict of v against the dict itself,
which is False; only when BOTH bounds are present is the verdict the
inclusive double bound min <= v <= max. One-sided bounds are honoured for
temperature_range/pressure_range, but not for custom properties. -/
theorem C2_amended_custom_property_bounds (spec : ProductSpecification)
    (data : List (String × PVal)) (p : String) (d : List (String × PVal))
    (l1 l2 : List (String × PVal)) (v : ℚ)
    (hprops : spec.properties = l1 ++ (p, PVal.dict d) :: l2)
    (hl2 : ∀ kv ∈ l2, kv.1 ≠ p)
    (hdata : pyGet data p = some (PVal.num v)) :
    ((containsKey d "min" = false ∨ containsKey d "max" = false) →
      pyGet (spec.is_satisfied_by data) p = some false) ∧
    (∀ mn mx : ℚ, pyGet d "min" = some (PVal.num mn) →
      pyGet d "max" = some (PVal.num mx) →
      pyGet (spec.is_satisfied_by data) p =
        some (decide (mn ≤ v) && decide (v ≤ mx))) := by
  have hbase : pyGet (spec.is_satisfied_by data) p =
      pyGet (checkCustom data (l1.foldl (fun r kv => checkCustom data r kv.1 kv.2)
        (checkPressure spec data (checkTemperature spec data (checkState spec data
          (checkYield spec data (checkPurity spec data [])))))) p (PVal.dict d)) p := by
    unfold ProductSpecification.is_satisfied_by
    rw [hprops, List.foldl_append, List.foldl_cons]
    exact customFold_ne data l2 _ p hl2
  constructor
  · intro hone
    rw [hbase]
    have hb : (containsKey d "min" && containsKey d "max") = false := by
      rcases hone with h | h <;> simp [h]
    simp only [checkCustom, hb, Bool.false_eq_true, if_false, hdata]
    rw [pyGet_dictInsert]
    simp [PVal.pyEq]
  · intro mn mx hmn hmx
    rw [hbase]
    have hcmn : containsKey d "min" = true := by simp [containsKey, hmn]
    have hcmx : containsKey d "max" = true := by simp [containsKey, hmx]
    simp only [checkCustom, hcmn, hcmx, Bool.and_self, if_true, hdata, hmn, hmx]
    rw [pyGet_dictInsert]
    simp [betweenVerdict]

/-- Witness for the amended C2 at a concrete input: a both-bounds custom
property yields the inclusive range verdict. -/
theorem C2_witness :
    pyGet (exSpecC2w.is_satisfied_by exDataC2w) "density" =
      some (decide ((1:ℚ) ≤ 3) && decide ((3:ℚ) ≤ 5)) :=
  (C2_amended_custom_property_bounds exSpecC2w exDataC2w "density"
    [("min", PVal.num 1), ("max", PVal.num 5)] [] [] 3 rfl (by simp) rfl).2 1 5 rfl rfl

theorem extract_fold_invariant (results : List (String × PVal)) :
    ∀ (streams : List String) (acc : List (String × List (String × PVal))),
      (∀ s Q, pyGet acc s = some Q → propsFor results s = some Q) →
      ∀ s Q, pyGet (streams.foldl (fun acc sid =>
        match propsFor results sid with
        | some p => dictInsert acc sid p
        | Option.none => acc) acc) s = some Q → propsFor results s = some Q := by
  intro streams
  induction streams with
  | nil => intro acc hacc s Q h; exact hacc s Q h
  | cons sid rest ih =>
    intro acc hacc s Q h
    rw [List.foldl_cons] at h
    refine ih _ ?_ s Q h
    intro s2 Q2 h2
    cases hp : propsFor results sid with
    | none => rw [hp] at h2; exact hacc s2 Q2 h2
    | some p =>
      rw [hp] at h2
      rw [pyGet_dictInsert] at h2
      by_cases hs : s2 = sid
      · rw [if_pos hs] at h2
        cases h2
        rw [hs]
        exact hp
      · rw [if_neg hs] at h2
        exact hacc s2 Q2 h2

theorem extract_propsFor (results : List (String × PVal)) (streams : List String)
    (sid : String) (P : List (String × PVal))
    (h : pyGet (extract_product_properties results streams) sid = some P) :
    propsFor results sid = some P := by
  unfold extract_product_properties at h
  refine extract_fold_invariant results streams [] ?_ sid P h
  intro s Q h0
  cases h0

theorem buildProps_state (fields : List (String × PVal)) :
    pyGet (buildProps fields) "state" =
      some (PVal.str (classifyState (vaporFractionOf fields))) := by
  unfold buildProps
  split
  · rfl
  · rfl

theorem classifyState_cases (vf : ℚ) :
    classifyState vf = "vapor" ∨ classifyState vf = "liquid" ∨
      classifyState vf = "mixed" := by
  unfold classifyState
  split
  · exact Or.inl rfl
  · split
    · exact Or.inr (Or.inl rfl)
    · exact Or.inr (Or.inr rfl)

/-- Counterexample for claim C5 as stated: a specification requiring the gas
state but also carrying a custom property under the key `state` has its state
verdict overwritten by the equality check of that custom property — against a
derived entry whose state is vapor, the returned state criterion is True, not
False. -/
theorem C5_counterexample :
    exSpecC5.state = some "gas" ∧
    pyGet (exSpecC5.is_satisfied_by exEntryC5) "state" = some true := by
  have h99 : ((99:ℚ)/100) < 1 := by norm_num
  have hentry : exEntryC5 =
      [("temperature", PVal.null), ("pressure", PVal.null),
       ("state", PVal.str "vapor")] := by
    simp [exEntryC5, extract_product_properties, propsFor, buildProps, buildPropsBase,
      compositionEntries, vaporFractionOf, classifyState, exResultsC5, pyGet,
      dictInsert, h99]
  refine ⟨rfl, ?_⟩
  rw [hentry]
  rfl

/-- Claim C5 (amended): every properties entry produced by
extract_product_properties has a state field valued vapor, liquid or mixed;
consequently a specification whose state is gas or solid — provided its
custom properties map does not also contain the key `state`, which would
overwrite the verdict — always receives a state criterion that is present
and False. -/
theorem C5_amended_state_never_gas_or_solid (spec : ProductSpecification)
    (st : String) (results : List (String × PVal)) (streams : List String)
    (sid : String) (P : List (String × PVal))
    (hst : spec.state = some st)
    (hgs : st = "gas" ∨ st = "solid")
    (hnoclash : containsKey spec.properties "state" = false)
    (hP : pyGet (extract_product_properties results streams) sid = some P) :
    (∃ s, pyGet P "state" = some (PVal.str s) ∧
      (s = "vapor" ∨ s = "liquid" ∨ s = "mixed")) ∧
    pyGet (spec.is_satisfied_by P) "state" = some false := by
  have hpf : propsFor results sid = some P := extract_propsFor results streams sid P hP
  obtain ⟨fields, hPb⟩ : ∃ fields, P = buildProps fields := by
    unfold propsFor at hpf
    cases hres : pyGet results sid with
    | none => rw [hres] at hpf; cases hpf
    | some v =>
      rw [hres] at hpf
      cases v with
      | dict fields => exact ⟨fields, (Option.some.inj hpf).symm⟩
      | num q => cases hpf
      | str s => cases hpf
      | null => cases hpf
  have hstate : pyGet P "state" =
      some (PVal.str (classifyState (vaporFractionOf fields))) := by
    rw [hPb]; exact buildProps_state fields
  have hcases := classifyState_cases (vaporFractionOf fields)
  refine ⟨⟨classifyState (vaporFractionOf fields), hstate, hcases⟩, ?_⟩
  unfold ProductSpecification.is_satisfied_by
  rw [customFold_skip P spec.properties _ "state" (Or.inl hnoclash),
    checkPressure_skip spec P _ "state" (Or.inl (by decide)),
    checkTemperature_skip spec P _ "state" (Or.inl (by decide))]
  simp only [checkState, hst, hstate]
  rw [pyGet_dictInsert, if_pos rfl]
  have hfalse : PVal.pyEq (PVal.str (classifyState (vaporFractionOf fields)))
      (PVal.str st) = false := by
    rcases hcases with h | h | h <;> rcases hgs with g | g <;> rw [h, g] <;> rfl
  rw [hfalse]

/-- Witness for the amended C5 at a concrete input: a solid-state
specification with no custom `state` property scores the derived vapor
entry's state criterion as present and False. -/
theorem C5_witness :
    (∃ s, pyGet exEntryC5 "state" = some (PVal.str s) ∧
      (s = "vapor" ∨ s = "liquid" ∨ s = "mixed")) ∧
    pyGet (exSpecC5w.is_satisfied_by exEntryC5) "state" = some false :=
  C5_amended_state_never_gas_or_solid exSpecC5w "solid" exResultsC5 ["S"] "S" exEntryC5
    rfl (Or.inr rfl) rfl
    (by
      have h99 : ((99:ℚ)/100) < 1 := by norm_num
      simp [exEntryC5, extract_product_properties, propsFor, buildProps, buildPropsBase,
        compositionEntries, vaporFractionOf, classifyState, exResultsC5, pyGet,
        dictInsert, h99])

theorem extract_fold_stable (results : List (String × PVal)) (sid : String)
    (P : List (String × PVal)) (hp : propsFor results sid = some P) :
    ∀ (streams : List String) (acc : List (String × List (String × PVal))),
      pyGet acc sid = some P →
      pyGet (streams.foldl (fun acc s =>
        match propsFor results s with
        | some p => dictInsert acc s p
        | Option.none => acc) acc) sid = some P := by
  intro streams
  induction streams with
  | nil => intro acc h; exact h
  | cons s2 rest ih =>
    intro acc h
    rw [List.foldl_cons]
    refine ih _ ?_
    cases hp2 : propsFor results s2 with
    | none => simp only [hp2]; exact h
    | some p2 =>
      simp only [hp2, pyGet_dictInsert]
      by_cases hs : sid = s2
      · rw [if_pos hs]
        rw [hs] at hp
        rw [hp] at hp2
        cases hp2
        rfl
      · rw [if_neg hs]; exact h

theorem extract_fold_mem (results : List (String × PVal)) (sid : String)
    (P : List (String × PVal)) (hp : propsFor results sid = some P) :
    ∀ (streams : List String) (acc : List (String × List (String × PVal))),
      sid ∈ streams →
      pyGet (streams.foldl (fun acc s =>
        match propsFor results s with
        | some p => dictInsert acc s p
        | Option.none => acc) acc) sid = some P := by
  intro streams
  induction streams with
  | nil => intro acc h; cases h
  | cons s2 rest ih =>
    intro acc hmem
    rw [List.foldl_cons]
    rcases List.mem_cons.mp hmem with h | h
    · subst h
      simp only [hp]
      exact extract_fold_stable results sid P hp rest _
        (by rw [pyGet_dictInsert, if_pos rfl])
    · exact ih _ h

theorem extract_lookup_of_mem (results : List (String × PVal)) (streams : List String)
    (sid : String) (P : List (String × PVal)) (hp : propsFor results sid = some P)
    (hmem : sid ∈ streams) :
    pyGet (extract_product_properties results streams) sid = some P := by
  unfold extract_product_properties
  exact extract_fold_mem results sid P hp streams [] hmem

/-- Counterexample for claim C3 as stated: a requested stream with the
non-empty composition (A, 0), whose flows sum to zero, produces a properties
entry that DOES contain the keys composition, main_component and purity —
present with the falsy values empty dict, None and 0, not absent as the
claim requires. -/
theorem C3_counterexample :
    pyGet (extract_product_properties exResultsC3 ["S"]) "S" =
      some [("temperature", PVal.null), ("pressure", PVal.null),
            ("state", PVal.str "liquid"),
            ("composition", PVal.dict []), ("main_component", PVal.null),
            ("purity", PVal.num 0)] := by
  have h99 : ¬ ((99:ℚ)/100 < 0) := by norm_num
  have h01 : (0:ℚ) < 1/100 := by norm_num
  simp [extract_product_properties, propsFor, buildProps, buildPropsBase,
    compositionEntries, vaporFractionOf, classifyState, massFractions, totalFlowOf,
    mainComponentOf, exResultsC3, pyGet, dictInsert, asNum, h99, h01]

/-- Claim C3 (amended): for a requested stream present in the results whose
composition is non-empty but whose flow values sum to zero, the entry
extract_product_properties returns for that stream carries the keys
composition, main_component and purity PRESENT with the degenerate values
empty dict, None and 0 — callers must treat those falsy values, not key
absence, as "undetermined". (The keys are absent only when the composition
itself is empty or missing.) -/
theorem C3_amended_zero_flow_entry (results : List (String × PVal))
    (streams : List String) (sid : String) (fields comp : List (String × PVal))
    (hres : pyGet results sid = some (PVal.dict fields))
    (hcomp : pyGet fields "composition" = some (PVal.dict comp))
    (hne : comp ≠ [])
    (hzero : totalFlowOf comp = 0)
    (hmem : sid ∈ streams) :
    ∃ P, pyGet (extract_product_properties results streams) sid = some P ∧
      pyGet P "composition" = some (PVal.dict []) ∧
      pyGet P "main_component" = some PVal.null ∧
      pyGet P "purity" = some (PVal.num 0) := by
  have hprops : propsFor results sid = some (buildProps fields) := by
    unfold propsFor; rw [hres]
  have hce : compositionEntries fields = comp := by
    unfold compositionEntries; rw [hcomp]
  have hfr : massFractions comp = [] := by
    unfold massFractions
    rw [hzero]
    simp
  have hie : comp.isEmpty = false := by
    cases comp with
    | nil => exact absurd rfl hne
    | cons a l => rfl
  have hbp : buildProps fields = buildPropsBase fields ++
      [("composition", PVal.dict []), ("main_component", PVal.null),
       ("purity", PVal.num 0)] := by
    unfold buildProps
    rw [hce, hie]
    simp only [Bool.false_eq_true, if_false]
    rw [hfr]
    rfl
  refine ⟨buildProps fields,
    extract_lookup_of_mem results streams sid _ hprops hmem, ?_, ?_, ?_⟩
  · rw [hbp]; rfl
  · rw [hbp]; rfl
  · rw [hbp]; rfl

/-- Witness for the amended C3 at the concrete zero-flow input. -/
theorem C3_witness :
    ∃ P, pyGet (extract_product_properties exResultsC3 ["S"]) "S" = some P ∧
      pyGet P "composition" = some (PVal.dict []) ∧
      pyGet P "main_component" = some PVal.null ∧
      pyGet P "purity" = some (PVal.num 0) :=
  C3_amended_zero_flow_entry exResultsC3 ["S"] "S"
    [("composition", PVal.dict [("A", PVal.num 0)])] [("A", PVal.num 0)]
    rfl rfl (by simp) (by simp [totalFlowOf, asNum]) (by simp)

theorem analyze_eq_filterMap (results : List (String × PVal)) :
    analyze_simulation_errors results = results.filterMap diagnosticOf := by
  suffices h : ∀ (l : List (String × PVal)) (acc : List String),
      l.foldl (fun errs entry =>
        match entry.2 with
        | PVal.dict fields =>
          if containsKey fields "type" then
            match flaggedStatus fields with
            | some st => errs ++ [blockErrorMessage entry.1 st]
            | Option.none => errs
          else errs
        | _ => errs) acc = acc ++ l.filterMap diagnosticOf by
    simpa using h results []
  intro l
  induction l with
  | nil => intro acc; simp
  | cons e rest ih =>
    intro acc
    rw [List.foldl_cons, List.filterMap_cons, ih]
    cases he : e.2 with
    | dict fields =>
      by_cases ht : containsKey fields "type" = true
      · cases hf : flaggedStatus fields with
        | none => simp [diagnosticOf, he, ht, hf]
        | some st => simp [diagnosticOf, he, ht, hf]
      · simp [diagnosticOf, he, ht]
    | num q => simp [diagnosticOf, he]
    | str s => simp [diagnosticOf, he]
    | null => simp [diagnosticOf, he]

/-- Counterexample for claim C9 as stated: a block entry whose status key is
present with the empty string — which is not case-insensitively equal to
"ok" — yields NO diagnostic message, because the code's truthiness guard
(`if status and ...`) drops every falsy status. -/
theorem C9_counterexample :
    pyGet [("type", PVal.str "X"), ("status", PVal.str "")] "status" =
      some (PVal.str "") ∧
    ¬ (pyLower "" = "ok") ∧
    analyze_simulation_errors exResultsC9 = [] := by
  refine ⟨rfl, by decide, rfl⟩

/-- Claim C9 (amended): analyze_simulation_errors returns, in iteration
order of the results, exactly one diagnostic message per dict-valued entry
that has a `type` key and whose status value is present as a truthy
(non-empty) string not case-insensitively equal to "ok", and no message for
any other entry; on the Reactor example it returns exactly the one message
referencing R1. -/
theorem C9_amended_error_scan :
    (∀ results : List (String × PVal),
      analyze_simulation_errors results = results.filterMap diagnosticOf) ∧
    analyze_simulation_errors exResultsC9ok = ["Block R1 has status: Error"] := by
  refine ⟨analyze_eq_filterMap, ?_⟩
  rfl

theorem csStep_skip (spec_dict : List (String × ProductSpecification))
    (acc : List (String × List (String × Bool)))
    (entry : String × List (String × PVal)) (k : String)
    (h : resolveMainComponent entry.2 ≠ some k) :
    pyGet (csStep spec_dict acc entry) k = pyGet acc k := by
  unfold csStep
  cases hr : resolveMainComponent entry.2 with
  | none => rfl
  | some pn =>
    cases hs : pyGet spec_dict pn with
    | none => simp only [hs]
    | some sp =>
      simp only [hs]
      rw [pyGet_dictInsert, if_neg (fun (hc : k = pn) => h (hc.symm ▸ hr))]

theorem csFold_skip (spec_dict : List (String × ProductSpecification))
    (l : List (String × List (String × PVal)))
    (acc : List (String × List (String × Bool))) (k : String)
    (h : ∀ e ∈ l, resolveMainComponent e.2 ≠ some k) :
    pyGet (l.foldl (csStep spec_dict) acc) k = pyGet acc k := by
  induction l generalizing acc with
  | nil => rfl
  | cons e rest ih =>
    rw [List.foldl_cons, ih _ (fun x hx => h x (List.mem_cons_of_mem e hx)),
      csStep_skip spec_dict acc e k (h e (List.mem_cons_self e rest))]

theorem csStep_hit (spec_dict : List (String × ProductSpecification))
    (acc : List (String × List (String × Bool)))
    (entry : String × List (String × PVal)) (k : String) (sp : ProductSpecification)
    (h1 : resolveMainComponent entry.2 = some k)
    (h2 : pyGet spec_dict k = some sp) :
    csStep spec_dict acc entry = dictInsert acc k (sp.is_satisfied_by entry.2) := by
  unfold csStep
  simp only [h1, h2]

theorem csStep_nodup (spec_dict : List (String × ProductSpecification))
    (acc : List (String × List (String × Bool)))
    (entry : String × List (String × PVal))
    (h : (acc.map Prod.fst).Nodup) :
    ((csStep spec_dict acc entry).map Prod.fst).Nodup := by
  unfold csStep
  cases hr : resolveMainComponent entry.2 with
  | none => exact h
  | some pn =>
    cases hs : pyGet spec_dict pn with
    | none => simpa only [hs] using h
    | some sp =>
      simp only [hs]
      exact nodup_keys_dictInsert acc pn (sp.is_satisfied_by entry.2) h

theorem csFold_nodup (spec_dict : List (String × ProductSpecification))
    (l : List (String × List (String × PVal))) :
    ∀ (acc : List (String × List (String × Bool))),
      (acc.map Prod.fst).Nodup →
      ((l.foldl (csStep spec_dict) acc).map Prod.fst).Nodup := by
  induction l with
  | nil => intro acc h; exact h
  | cons e rest ih =>
    intro acc h
    rw [List.foldl_cons]
    exact ih _ (csStep_nodup spec_dict acc e h)

/-- Claim C6: check_specifications keys its result by specification name:
when exactly two stream entries (in iteration order) resolve to the same
main component matching a known specification name, the returned map holds
exactly one entry for that name, equal to is_satisfied_by evaluated on the
later stream's properties — the second evaluation overwrites the first. -/
theorem C6_second_stream_overwrites
    (l1 l2 l3 : List (String × List (String × PVal)))
    (s1 s2 : String) (P1 P2 : List (String × PVal))
    (specs : List ProductSpecification) (nm : String) (sp : ProductSpecification)
    (h1 : resolveMainComponent P1 = some nm)
    (h2 : resolveMainComponent P2 = some nm)
    (hsp : pyGet (specDictOf specs) nm = some sp)
    (hothers : ∀ e ∈ l1 ++ l2 ++ l3, resolveMainComponent e.2 ≠ some nm) :
    pyGet (check_specifications (l1 ++ (s1, P1) :: l2 ++ (s2, P2) :: l3) specs) nm =
      some (sp.is_satisfied_by P2) ∧
    ((check_specifications (l1 ++ (s1, P1) :: l2 ++ (s2, P2) :: l3) specs).map
      Prod.fst).count nm = 1 := by
  have hl3 : ∀ e ∈ l3, resolveMainComponent e.2 ≠ some nm := by
    intro e he; exact hothers e (by simp [he])
  have hget : pyGet (check_specifications (l1 ++ (s1, P1) :: l2 ++ (s2, P2) :: l3)
      specs) nm = some (sp.is_satisfied_by P2) := by
    unfold check_specifications
    rw [List.foldl_append, List.foldl_cons, List.foldl_append, List.foldl_cons,
      csFold_skip (specDictOf specs) l3 _ nm hl3,
      csStep_hit (specDictOf specs) _ (s2, P2) nm sp h2 hsp,
      pyGet_dictInsert, if_pos rfl]
  refine ⟨hget, ?_⟩
  have hnodup : ((check_specifications (l1 ++ (s1, P1) :: l2 ++ (s2, P2) :: l3)
      specs).map Prod.fst).Nodup := by
    unfold check_specifications
    exact csFold_nodup (specDictOf specs) _ [] (by simp)
  have hmem : nm ∈ (check_specifications (l1 ++ (s1, P1) :: l2 ++ (s2, P2) :: l3)
      specs).map Prod.fst := by
    by_contra hc
    rw [pyGet_eq_none_of_not_mem_keys _ nm hc] at hget
    cases hget
  exact List.count_eq_one_of_mem hnodup hmem

/-- Witness for C6 at a concrete input: two streams both resolving to the
Ethanol specification; the result holds one entry carrying the verdict of
the second stream. -/
theorem C6_witness :
    pyGet (check_specifications [("S1", exP1C6), ("S2", exP2C6)] [exSpecC6]) "Ethanol" =
      some (exSpecC6.is_satisfied_by exP2C6) ∧
    ((check_specifications [("S1", exP1C6), ("S2", exP2C6)] [exSpecC6]).map
      Prod.fst).count "Ethanol" = 1 :=
  C6_second_stream_overwrites [] [] [] "S1" "S2" exP1C6 exP2C6 [exSpecC6] "Ethanol"
    exSpecC6 rfl rfl rfl (by simp)

theorem pyGet_balAdd_in (bal : List (String × ℚ × ℚ)) (comp c : String) (flow : ℚ) :
    pyGet (balAdd true bal comp flow) c =
      if c = comp then
        some (((pyGet bal comp).getD (0, 0)).1 + flow, ((pyGet bal comp).getD (0, 0)).2)
      else pyGet bal c := by
  unfold balAdd
  rw [pyGet_dictInsert]

theorem pyGet_balAdd_out (bal : List (String × ℚ × ℚ)) (comp c : String) (flow : ℚ) :
    pyGet (balAdd false bal comp flow) c =
      if c = comp then
        some (((pyGet bal comp).getD (0, 0)).1, ((pyGet bal comp).getD (0, 0)).2 + flow)
      else pyGet bal c := by
  unfold balAdd
  rw [pyGet_dictInsert]

theorem balAdd_in_fst (bal : List (String × ℚ × ℚ)) (comp c : String) (flow : ℚ) :
    ((pyGet (balAdd true bal comp flow) c).getD (0, 0)).1 =
      ((pyGet bal c).getD (0, 0)).1 + (if c = comp then flow else 0) := by
  rw [pyGet_balAdd_in]
  by_cases h : c = comp
  · rw [if_pos h, if_pos h, h]
    simp
  · rw [if_neg h, if_neg h]
    simp

theorem balAdd_in_snd (bal : List (String × ℚ × ℚ)) (comp c : String) (flow : ℚ) :
    ((pyGet (balAdd true bal comp flow) c).getD (0, 0)).2 =
      ((pyGet bal c).getD (0, 0)).2 := by
  rw [pyGet_balAdd_in]
  by_cases h : c = comp
  · rw [if_pos h, h]
    rfl
  · rw [if_neg h]

theorem balAdd_out_fst (bal : List (String × ℚ × ℚ)) (comp c : String) (flow : ℚ) :
    ((pyGet (balAdd false bal comp flow) c).getD (0, 0)).1 =
      ((pyGet bal c).getD (0, 0)).1 := by
  rw [pyGet_balAdd_out]
  by_cases h : c = comp
  · rw [if_pos h, h]
    rfl
  · rw [if_neg h]

theorem balAdd_out_snd (bal : List (String × ℚ × ℚ)) (comp c : String) (flow : ℚ) :
    ((pyGet (balAdd false bal comp flow) c).getD (0, 0)).2 =
      ((pyGet bal c).getD (0, 0)).2 + (if c = comp then flow else 0) := by
  rw [pyGet_balAdd_out]
  by_cases h : c = comp
  · rw [if_pos h, if_pos h, h]
    simp
  · rw [if_neg h, if_neg h]
    simp

theorem compFold_in_fst (entries : List (String × PVal)) :
    ∀ (bal : List (String × ℚ × ℚ)) (c : String),
      ((pyGet (entries.foldl (fun b kv => balAdd true b kv.1 (asNum kv.2)) bal) c).getD
        (0, 0)).1 =
      ((pyGet bal c).getD (0, 0)).1 +
        ((entries.filter (fun kv => kv.1 = c)).map (fun kv => asNum kv.2)).sum := by
  induction entries with
  | nil => intro bal c; simp
  | cons kv rest ih =>
    intro bal c
    rw [List.foldl_cons, ih, balAdd_in_fst, List.filter_cons]
    by_cases h : kv.1 = c
    · rw [if_pos h.symm, if_pos (show (decide (kv.1 = c)) = true by simp [h]),
        List.map_cons, List.sum_cons]
      ring
    · rw [if_neg (fun hc : c = kv.1 => h hc.symm),
        if_neg (show ¬ (decide (kv.1 = c)) = true by simp [h]), add_zero]

theorem compFold_in_snd (entries : List (String × PVal)) :
    ∀ (bal : List (String × ℚ × ℚ)) (c : String),
      ((pyGet (entries.foldl (fun b kv => balAdd true b kv.1 (asNum kv.2)) bal) c).getD
        (0, 0)).2 = ((pyGet bal c).getD (0, 0)).2 := by
  induction entries with
  | nil => intro bal c; rfl
  | cons kv rest ih =>
    intro bal c
    rw [List.foldl_cons, ih, balAdd_in_snd]

theorem compFold_out_fst (entries : List (String × PVal)) :
    ∀ (bal : List (String × ℚ × ℚ)) (c : String),
      ((pyGet (entries.foldl (fun b kv => balAdd false b kv.1 (asNum kv.2)) bal) c).getD
        (0, 0)).1 = ((pyGet bal c).getD (0, 0)).1 := by
  induction entries with
  | nil => intro bal c; rfl
  | cons kv rest ih =>
    intro bal c
    rw [List.foldl_cons, ih, balAdd_out_fst]

theorem compFold_out_snd (entries : List (String × PVal)) :
    ∀ (bal : List (String × ℚ × ℚ)) (c : String),
      ((pyGet (entries.foldl (fun b kv => balAdd false b kv.1 (asNum kv.2)) bal) c).getD
        (0, 0)).2 =
      ((pyGet bal c).getD (0, 0)).2 +
        ((entries.filter (fun kv => kv.1 = c)).map (fun kv => asNum kv.2)).sum := by
  induction entries with
  | nil => intro bal c; simp
  | cons kv rest ih =>
    intro bal c
    rw [List.foldl_cons, ih, balAdd_out_snd, List.filter_cons]
    by_cases h : kv.1 = c
    · rw [if_pos h.symm, if_pos (show (decide (kv.1 = c)) = true by simp [h]),
        List.map_cons, List.sum_cons]
      ring
    · rw [if_neg (fun hc : c = kv.1 => h hc.symm),
        if_neg (show ¬ (decide (kv.1 = c)) = true by simp [h]), add_zero]

theorem accumFold_in_fst (results : List (String × PVal)) (ids : List String) :
    ∀ (bal : List (String × ℚ × ℚ)) (c : String),
      ((pyGet (ids.foldl (accumStream true results) bal) c).getD (0, 0)).1 =
        ((pyGet bal c).getD (0, 0)).1 +
          (ids.map (fun sid => flowOf results sid c)).sum := by
  induction ids with
  | nil => intro bal c; simp
  | cons sid rest ih =>
    intro bal c
    rw [List.foldl_cons, ih]
    unfold accumStream
    rw [compFold_in_fst]
    unfold flowOf
    rw [List.map_cons, List.sum_cons]
    ring

theorem accumFold_in_snd (results : List (String × PVal)) (ids : List String) :
    ∀ (bal : List (String × ℚ × ℚ)) (c : String),
      ((pyGet (ids.foldl (accumStream true results) bal) c).getD (0, 0)).2 =
        ((pyGet bal c).getD (0, 0)).2 := by
  induction ids with
  | nil => intro bal c; rfl
  | cons sid rest ih =>
    intro bal c
    rw [List.foldl_cons, ih]
    unfold accumStream
    rw [compFold_in_snd]

theorem accumFold_out_fst (results : List (String × PVal)) (ids : List String) :
    ∀ (bal : List (String × ℚ × ℚ)) (c : String),
      ((pyGet (ids.foldl (accumStream false results) bal) c).getD (0, 0)).1 =
        ((pyGet bal c).getD (0, 0)).1 := by
  induction ids with
  | nil => intro bal c; rfl
  | cons sid rest ih =>
    intro bal c
    rw [List.foldl_cons, ih]
    unfold accumStream
    rw [compFold_out_fst]

theorem accumFold_out_snd (results : List (String × PVal)) (ids : List String) :
    ∀ (bal : List (String × ℚ × ℚ)) (c : String),
      ((pyGet (ids.foldl (accumStream false results) bal) c).getD (0, 0)).2 =
        ((pyGet bal c).getD (0, 0)).2 +
          (ids.map (fun sid => flowOf results sid c)).sum := by
  induction ids with
  | nil => intro bal c; simp
  | cons sid rest ih =>
    intro bal c
    rw [List.foldl_cons, ih]
    unfold accumStream
    rw [compFold_out_snd]
    unfold flowOf
    rw [List.map_cons, List.sum_cons]
    ring

theorem balAdd_nodup (isInput : Bool) (bal : List (String × ℚ × ℚ)) (comp : String)
    (flow : ℚ) (h : (bal.map Prod.fst).Nodup) :
    ((balAdd isInput bal comp flow).map Prod.fst).Nodup := by
  unfold balAdd
  cases isInput <;> exact nodup_keys_dictInsert bal comp _ h

theorem compFold_nodup (isInput : Bool) (entries : List (String × PVal)) :
    ∀ (bal : List (String × ℚ × ℚ)), (bal.map Prod.fst).Nodup →
      ((entries.foldl (fun b kv => balAdd isInput b kv.1 (asNum kv.2)) bal).map
        Prod.fst).Nodup := by
  induction entries with
  | nil => intro bal h; exact h
  | cons kv rest ih =>
    intro bal h
    rw [List.foldl_cons]
    exact ih _ (balAdd_nodup isInput bal kv.1 (asNum kv.2) h)

theorem accumFold_nodup (isInput : Bool) (results : List (String × PVal))
    (ids : List String) :
    ∀ (bal : List (String × ℚ × ℚ)), (bal.map Prod.fst).Nodup →
      ((ids.foldl (accumStream isInput results) bal).map Prod.fst).Nodup := by
  induction ids with
  | nil => intro bal h; exact h
  | cons sid rest ih =>
    intro bal h
    rw [List.foldl_cons]
    exact ih _ (compFold_nodup isInput _ bal h)

theorem errsFold_eq_filterMap (bal : List (String × ℚ × ℚ)) :
    ∀ acc : List (String × ℚ),
      bal.foldl (fun errs entry =>
        if 0 < entry.2.1 then errs ++ [(entry.1, (entry.2.2 - entry.2.1) / entry.2.1)]
        else errs) acc =
      acc ++ bal.filterMap (fun entry =>
        if 0 < entry.2.1 then some (entry.1, (entry.2.2 - entry.2.1) / entry.2.1)
        else Option.none) := by
  induction bal with
  | nil => intro acc; simp
  | cons e rest ih =>
    intro acc
    rw [List.foldl_cons, List.filterMap_cons, ih]
    by_cases h : 0 < e.2.1
    · rw [if_pos h, if_pos h]
      simp
    · rw [if_neg h, if_neg h]

theorem pyGet_errsMap_not_mem (bal : List (String × ℚ × ℚ)) (c : String)
    (h : c ∉ bal.map Prod.fst) :
    pyGet (bal.filterMap (fun entry =>
      if 0 < entry.2.1 then some (entry.1, (entry.2.2 - entry.2.1) / entry.2.1)
      else Option.none)) c = Option.none := by
  induction bal with
  | nil => rfl
  | cons e rest ih =>
    simp only [List.map_cons, List.mem_cons, not_or] at h
    rw [List.filterMap_cons]
    by_cases hp : 0 < e.2.1
    · rw [if_pos hp]
      have : ¬ e.1 = c := fun hc => h.1 hc.symm
      simp only [pyGet, this, if_false]
      exact ih h.2
    · rw [if_neg hp]
      exact ih h.2

theorem pyGet_errsMap (bal : List (String × ℚ × ℚ)) (c : String)
    (hnd : (bal.map Prod.fst).Nodup) :
    pyGet (bal.filterMap (fun entry =>
      if 0 < entry.2.1 then some (entry.1, (entry.2.2 - entry.2.1) / entry.2.1)
      else Option.none)) c =
      (match pyGet bal c with
       | some io => if 0 < io.1 then some ((io.2 - io.1) / io.1) else Option.none
       | Option.none => Option.none) := by
  induction bal with
  | nil => rfl
  | cons e rest ih =>
    simp only [List.map_cons, List.nodup_cons] at hnd
    rw [List.filterMap_cons]
    by_cases hc : e.1 = c
    · have hsc : pyGet (e :: rest) c = some e.2 := by simp [pyGet, hc]
      by_cases hp : 0 < e.2.1
      · rw [if_pos hp]
        simp only [hsc, if_pos hp]
        simp [pyGet, hc]
      · rw [if_neg hp]
        simp only [hsc, if_neg hp]
        exact pyGet_errsMap_not_mem rest c (by rw [← hc]; exact hnd.1)
    · have hsc : pyGet (e :: rest) c = pyGet rest c := by simp [pyGet, hc]
      by_cases hp : 0 < e.2.1
      · rw [if_pos hp]
        simp only [hsc]
        rw [show pyGet ((e.1, (e.2.2 - e.2.1) / e.2.1) :: rest.filterMap (fun entry =>
          if 0 < entry.2.1 then some (entry.1, (entry.2.2 - entry.2.1) / entry.2.1)
          else Option.none)) c = pyGet (rest.filterMap (fun entry =>
          if 0 < entry.2.1 then some (entry.1, (entry.2.2 - entry.2.1) / entry.2.1)
          else Option.none)) c from by simp [pyGet, hc]]
        exact ih hnd.2
      · rw [if_neg hp]
        simp only [hsc]
        exact ih hnd.2

theorem feed_product_disjoint (s : String) (h : pyStartsWith s "FEED" = true) :
    pyStartsWith s "PRODUCT" = false := by
  unfold pyStartsWith at h ⊢
  have hf : ("FEED".data) = ['F', 'E', 'E', 'D'] := rfl
  have hp : ("PRODUCT".data) = ['P', 'R', 'O', 'D', 'U', 'C', 'T'] := rfl
  rw [hf] at h
  rw [hp]
  cases hs : s.data with
  | nil => rw [hs] at h; cases h
  | cons c cs =>
    rw [hs] at h
    simp only [List.isPrefixOf, Bool.and_eq_true, beq_iff_eq] at h
    have hc : c = 'F' := h.1.symm
    simp [List.isPrefixOf, hc]

theorem output_ids_eq (results : List (String × PVal)) :
    outputStreamIds results = claimOutputIds results := by
  unfold outputStreamIds claimOutputIds
  apply List.filter_congr
  intro s hs
  by_cases hF : pyStartsWith s "FEED" = true
  · have hmem : s ∈ inputStreamIds results := by
      unfold inputStreamIds
      exact List.mem_filter.mpr ⟨hs, hF⟩
    have hcont : (inputStreamIds results).contains s = true := List.elem_iff.mpr hmem
    rw [hcont, hF, feed_product_disjoint s hF]
    rfl
  · have hFf : pyStartsWith s "FEED" = false := by
      cases hv : pyStartsWith s "FEED" with
      | true => exact absurd hv hF
      | false => rfl
    have hnm : s ∉ inputStreamIds results := by
      intro hmem
      exact hF (List.mem_filter.mp hmem).2
    have hcont : (inputStreamIds results).contains s = false := by
      cases hv : (inputStreamIds results).contains s with
      | true => exact absurd (List.elem_iff.mp hv) hnm
      | false => rfl
    rw [hcont, hFf]
    simp

theorem mass_balance_characterization (results : List (String × PVal)) (c : String) :
    pyGet (check_mass_balance results) c =
      if 0 < inputTotal results c then
        some ((outputTotal results c - inputTotal results c) / inputTotal results c)
      else Option.none := by
  unfold check_mass_balance
  rw [errsFold_eq_filterMap, List.nil_append]
  have hnd2 : ((((outputStreamIds results).foldl (accumStream false results)
      ((inputStreamIds results).foldl (accumStream true results) []))).map
      Prod.fst).Nodup := by
    exact accumFold_nodup false results (outputStreamIds results) _
      (accumFold_nodup true results (inputStreamIds results) [] (by simp))
  rw [pyGet_errsMap _ c hnd2]
  have hI : ((pyGet ((outputStreamIds results).foldl (accumStream false results)
      ((inputStreamIds results).foldl (accumStream true results) [])) c).getD (0, 0)).1 =
      inputTotal results c := by
    rw [accumFold_out_fst, accumFold_in_fst]
    unfold inputTotal
    simp [pyGet]
  have hO : ((pyGet ((outputStreamIds results).foldl (accumStream false results)
      ((inputStreamIds results).foldl (accumStream true results) [])) c).getD (0, 0)).2 =
      outputTotal results c := by
    rw [accumFold_out_snd, accumFold_in_snd]
    unfold outputTotal
    rw [output_ids_eq]
    simp [pyGet]
  cases hb : pyGet ((outputStreamIds results).foldl (accumStream false results)
      ((inputStreamIds results).foldl (accumStream true results) [])) c with
  | none =>
    rw [hb] at hI
    simp only [Option.getD_none] at hI
    rw [← hI]
    simp
  | some io =>
    rw [hb] at hI hO
    simp only [Option.getD_some] at hI hO
    simp only [← hI, ← hO]

/-- Counterexample for claim C4 as stated: with a negative feed flow the
input total of component A is -100 — nonzero — yet check_mass_balance omits
A entirely, because the code keeps only components with strictly positive
input total, not merely nonzero ones. -/
theorem C4_counterexample :
    inputTotal exResultsC4c "A" = -100 ∧
    (-100 : ℚ) ≠ 0 ∧
    pyGet (check_mass_balance exResultsC4c) "A" = Option.none := by
  have s1 : pyStartsWith "FEED_1" "FEED" = true := by decide
  have s2 : pyStartsWith "X" "FEED" = false := by decide
  have hin : inputTotal exResultsC4c "A" = -100 := by
    simp [inputTotal, inputStreamIds, streamIdsOf, isStreamRecord, flowOf,
      compositionOf, compositionEntries, containsKey, pyGet, asNum, exResultsC4c, s1, s2]
  refine ⟨hin, by norm_num, ?_⟩
  rw [mass_balance_characterization, hin]
  norm_num

/-- Claim C4 (amended): check_mass_balance treats exactly the dict-valued
entries containing a composition key as streams, classifies the FEED-prefixed
ids as inputs and all others as outputs, and reports per component the
relative error (output_total - input_total) / input_total, omitting every
component whose input total is NOT STRICTLY POSITIVE (in particular every
zero-input component); on the claim's example it reports A at -1/10, and a
component present only in output streams is absent. -/
theorem C4_amended_mass_balance :
    (∀ (results : List (String × PVal)) (comp : String),
      pyGet (check_mass_balance results) comp =
        if 0 < inputTotal results comp then
          some ((outputTotal results comp - inputTotal results comp) /
            inputTotal results comp)
        else Option.none) ∧
    pyGet (check_mass_balance exResultsC4a) "A" = some (-1/10) ∧
    pyGet (check_mass_balance exResultsC4b) "B" = Option.none := by
  have s1 : pyStartsWith "FEED_1" "FEED" = true := by decide
  have s2 : pyStartsWith "X" "FEED" = false := by decide
  refine ⟨mass_balance_characterization, ?_, ?_⟩
  · have hin : inputTotal exResultsC4a "A" = 100 := by
      simp [inputTotal, inputStreamIds, streamIdsOf, isStreamRecord, flowOf,
        compositionOf, compositionEntries, containsKey, pyGet, asNum, exResultsC4a, s1, s2]
    have hout : outputTotal exResultsC4a "A" = 90 := by
      simp [outputTotal, claimOutputIds, streamIdsOf, isStreamRecord, flowOf,
        compositionOf, compositionEntries, containsKey, pyGet, asNum, exResultsC4a, s1, s2]
    rw [mass_balance_characterization, hin, hout]
    norm_num
  · have hin : inputTotal exResultsC4b "B" = 0 := by
      simp [inputTotal, inputStreamIds, streamIdsOf, isStreamRecord, flowOf,
        compositionOf, compositionEntries, containsKey, pyGet, asNum, exResultsC4b, s1, s2]
    rw [mass_balance_characterization, hin]
    norm_num
